import Mathlib

/-!
# TinyLink backend — shallow embedding

A shallow embedding of the TinyLink URL-shortening backend
(`src/backend`: an Express app over a single PostgreSQL `links` table)
together with theorems settling the specification claims.

Modelling conventions:
* The `links` table is a `List LinkRow` (`Store`); the Store-level unique
  constraint on `short_code` shows up in `dbInsert`, which rejects a row
  whose code already exists, exactly as the SQL `UNIQUE` constraint does.
* `Math.random()` is modelled as a stream `rng : Nat → Nat` of raw draws,
  consumed one per call; `randInt n` on the k-th call is `rng k % n`.
* The platform `new URL(...).toString()` normalizer is external to the
  repository, so it is a parameter `parseURL : String → Option String`
  (`none` = the constructor throws, `some u` = the re-serialized URL).
* Timestamps (`now()`, `process.uptime()`) are `Nat` parameters.
* JavaScript truthiness on the optional string fields of the request body
  (`if (!longUrl)`, `if (short_code)`) is `jsTruthy`: absent or empty
  strings are falsy.
-/

/-- One row of the `links` table
(`short_code, target_url, total_clicks, last_clicked_time`). -/
structure LinkRow where
  short_code : String
  target_url : String
  total_clicks : Nat
  last_clicked_time : Option Nat
  deriving Repr, DecidableEq

/-- The `links` table. -/
abbrev Store := List LinkRow

/-- The body of the health response that the claims mention
(`server_platform`, `server_pid` and `timestamp` are environmental and
omitted). -/
structure HealthBody where
  status : String
  version : String
  uptime_seconds : Nat
  uptime_formatted : String
  total_links : Nat
  deriving Repr, DecidableEq

/-- The distinct response shapes produced by `res.*` calls in the app. -/
inductive Response where
  | errJson (status : Nat) (error : String)
  | linkJson (status : Nat) (body : LinkRow)
  | createdJson (status : Nat) (body : LinkRow) (shortUrl : String)
  | listJson (status : Nat) (body : List LinkRow)
  | healthJson (status : Nat) (body : HealthBody)
  | text (status : Nat) (body : String)
  | redirectTo (status : Nat) (location : String)
  | noContent (status : Nat)
  deriving Repr, DecidableEq

/-- The HTTP status carried by a response. -/
def Response.statusCode : Response → Nat
  | .errJson s _ => s
  | .linkJson s _ => s
  | .createdJson s _ _ => s
  | .listJson s _ => s
  | .healthJson s _ => s
  | .text s _ => s
  | .redirectTo s _ => s
  | .noContent s => s

/-- JavaScript truthiness of an optional string field of the JSON body:
`undefined` and `""` are falsy. -/
def jsTruthy : Option String → Bool
  | none => false
  | some s => if s = "" then false else true

/-- `formatUptime(seconds)`. -/
def formatUptime (seconds : Nat) : String :=
  let days := seconds / 86400
  let hours := seconds % 86400 / 3600
  let minutes := seconds % 3600 / 60
  let secs := seconds % 60
  toString days ++ "d " ++ toString hours ++ "h " ++ toString minutes
    ++ "m " ++ toString secs ++ "s"

/-- `CODE_REGEX = /^[A-Za-z0-9]\x7b6,8\x7d$/` as a decidable test:
length between 6 and 8 and every character ASCII alphanumeric. -/
def codeRegex (str : String) : Bool :=
  decide (6 ≤ str.data.length) && decide (str.data.length ≤ 8)
    && str.data.all Char.isAlphanum

/-- `CHARS`, the 62-character alphabet used by `genCode`. -/
def CHARS : String :=
  "ABCDEFGHIJKLMNOPQRSTUVWXYZabcdefghijklmnopqrstuvwxyz0123456789"

/-- `CHARS[i]` (the index is always in bounds in the source; the default
is unreachable). -/
def charAt (i : Nat) : Char := CHARS.data.getD i 'A'

/-- The character-accumulation loop of `genCode`: starting at rng-stream
position `i`, draw `n` characters `CHARS[randInt(62)]`. -/
def genChars (rng : Nat → Nat) (i : Nat) : Nat → List Char
  | 0 => []
  | n + 1 => charAt (rng i % 62) :: genChars rng (i + 1) n

/-- `genCode()`: one draw for the length (6 + randInt(3)), then one draw
per character. Returns the code and the next unconsumed rng position. -/
def genCode (rng : Nat → Nat) (i : Nat) : String × Nat :=
  let len := 6 + rng i % 3
  (String.mk (genChars rng (i + 1) len), i + 1 + len)

/-- `codeExists(short_code)`: `SELECT 1 FROM links WHERE short_code = $1`. -/
def codeExists (s : Store) (code : String) : Bool :=
  s.any (fun r => r.short_code = code)

/-- The `do { short_code = genCode(); attempts++; if (attempts > 10) break; }
while (await codeExists(short_code))` loop of the create handler.

`fuel` is the change of variable `10 - attempts` (attempts at entry is 0,
so fuel at entry is 10): the source breaks, with no further existence
check, on the iteration that makes `attempts > 10`, i.e. exactly when
`fuel` has reached 0.  Returns the last generated code, the next rng
position, and the number of loop iterations (the final value of
`attempts`). -/
def genLoop (rng : Nat → Nat) (s : Store) (i : Nat) :
    Nat → Nat → String × Nat × Nat
  | 0, attempts =>
    let c := genCode rng i
    (c.1, c.2, attempts + 1)
  | fuel + 1, attempts =>
    let c := genCode rng i
    if codeExists s c.1 then genLoop rng s c.2 fuel (attempts + 1)
    else (c.1, c.2, attempts + 1)

/-- A JSON body `{longUrl, customCode}` posted to `/api/links`. -/
structure CreateReq where
  longUrl : Option String
  customCode : Option String
  deriving Repr, DecidableEq

/-- Errors raised by the Store. -/
inductive DBError where
  | uniqueViolation
  deriving Repr, DecidableEq

/-- The row built by the `INSERT INTO links ... VALUES ($1, $2, 0, NULL)`
statement. -/
def insertRow (code url : String) : LinkRow :=
  { short_code := code, target_url := url, total_clicks := 0,
    last_clicked_time := none }

/-- The Store's side of the insert: the `UNIQUE` constraint on
`short_code` rejects a duplicate code with a unique-constraint violation,
otherwise the row is appended. -/
def dbInsert (s : Store) (row : LinkRow) : Except DBError Store :=
  if codeExists s row.short_code then Except.error DBError.uniqueViolation
  else Except.ok (s ++ [row])

/-- The basic error-handler middleware: any error forwarded by a route's
`catch (err) \x7b next(err) \x7d` becomes a generic 500. -/
def errorMiddleware (_e : DBError) : Response :=
  Response.errJson 500 "Internal server error"

/-- The tail of the create handler from the `INSERT` on: a Store
unique-violation (possible when a concurrent request inserted the same
code after this request's pre-check) is caught and forwarded to the
error middleware; on success the row is returned with the derived
`shortUrl` added. -/
def createInsertTail (baseUrl code url : String) (s : Store) :
    Response × Store :=
  match dbInsert s (insertRow code url) with
  | Except.ok s' =>
      (Response.createdJson 201 (insertRow code url)
        (baseUrl ++ "/" ++ code), s')
  | Except.error e => (errorMiddleware e, s)

/-- `POST /api/links`. -/
def createLink (parseURL : String → Option String) (rng : Nat → Nat)
    (baseUrl : String) (req : CreateReq) (s : Store) : Response × Store :=
  if jsTruthy req.longUrl = false then
    (Response.errJson 400 "longUrl is required", s)
  else
    match parseURL (req.longUrl.getD "") with
    | none => (Response.errJson 400 "Invalid URL provided", s)
    | some normalizedUrl =>
      if jsTruthy req.customCode then
        let code := req.customCode.getD ""
        if codeRegex code = false then
          (Response.errJson 400 "customCode must match [A-Za-z0-9]\x7b6,8\x7d", s)
        else if codeExists s code then
          (Response.errJson 409 "Code already exists", s)
        else createInsertTail baseUrl code normalizedUrl s
      else
        let g := genLoop rng s 0 10 0
        if codeExists s g.1 then
          (Response.errJson 500 "Failed to generate unique short_code, try again", s)
        else createInsertTail baseUrl g.1 normalizedUrl s

/-- `GET /api/links`. -/
def listLinks (s : Store) : Response := Response.listJson 200 s

/-- `GET /api/links/:short_code`. -/
def getLinkStats (code : String) (s : Store) : Response :=
  match s.find? (fun r => r.short_code = code) with
  | none => Response.errJson 404 "Not found"
  | some r => Response.linkJson 200 r

/-- `DELETE /api/links/:short_code`: the `DELETE ... WHERE short_code = $1
RETURNING short_code` removes every matching row; `rowCount = 0` yields
404, otherwise `204` with no content. -/
def deleteLink (code : String) (s : Store) : Response × Store :=
  if codeExists s code then
    (Response.noContent 204, s.filter (fun r => !(r.short_code = code)))
  else (Response.errJson 404 "Not found", s)

/-- The row transformation of `UPDATE links SET total_clicks =
total_clicks + 1, last_clicked_time = now() WHERE short_code = $1`. -/
def clickUpdate (now : Nat) (code : String) (r : LinkRow) : LinkRow :=
  if r.short_code = code then
    { r with total_clicks := r.total_clicks + 1,
             last_clicked_time := some now }
  else r

/-- `GET /:short_code`: look the code up; absent gives a plain-text 404;
present runs the atomic increment-in-place `UPDATE` and answers
`res.redirect(302, longUrl)`. -/
def redirectHandler (now : Nat) (code : String) (s : Store) :
    Response × Store :=
  match s.find? (fun r => r.short_code = code) with
  | none => (Response.text 404 "Not found", s)
  | some r => (Response.redirectTo 302 r.target_url, s.map (clickUpdate now code))

/-- `GET /health` (success path; the `SELECT COUNT(*)` on the pure store
cannot fail). -/
def healthHandler (uptime : Nat) (s : Store) : Response :=
  Response.healthJson 200
    { status := "healthy", version := "1.0", uptime_seconds := uptime,
      uptime_formatted := formatUptime uptime, total_links := s.length }

/-- The route a request is dispatched to. -/
inductive Target where
  | health
  | createL
  | listL
  | getL (code : String)
  | deleteL (code : String)
  | redirectL (code : String)
  | noRoute
  deriving Repr, DecidableEq

/-- Express routing over the registered routes, in registration order:
`GET /health`, `POST /api/links`, `GET /api/links`,
`GET /api/links/:short_code`, `DELETE /api/links/:short_code`,
`GET /:short_code`.  The path is its list of segments. -/
def dispatch : String → List String → Target
  | "GET", ["health"] => Target.health
  | "POST", ["api", "links"] => Target.createL
  | "GET", ["api", "links"] => Target.listL
  | "GET", ["api", "links", c] => Target.getL c
  | "DELETE", ["api", "links", c] => Target.deleteL c
  | "GET", [c] => Target.redirectL c
  | _, _ => Target.noRoute

/-- Environmental inputs of a request: the URL normalizer, the random
stream, `BASE_URL`, the database clock `now()` and the process uptime. -/
structure Env where
  parseURL : String → Option String
  rng : Nat → Nat
  baseUrl : String
  now : Nat
  uptime : Nat

/-- One API operation with its request data. -/
inductive Op where
  | health
  | create (req : CreateReq)
  | list
  | get (code : String)
  | del (code : String)
  | redirect (code : String)

/-- Whether an operation is the redirect handler. -/
def Op.isRedirect : Op → Bool
  | .redirect _ => true
  | _ => false

/-- One request handled against the store: the response and the store
afterwards. -/
def step (env : Env) (op : Op) (s : Store) : Response × Store :=
  match op with
  | .health => (healthHandler env.uptime s, s)
  | .create req => createLink env.parseURL env.rng env.baseUrl req s
  | .list => (listLinks s, s)
  | .get c => (getLinkStats c s, s)
  | .del c => deleteLink c s
  | .redirect c => redirectHandler env.now c s

/-- The click counter of the row a lookup of `code` finds. -/
def clicksOf (s : Store) (code : String) : Option Nat :=
  (s.find? (fun r => r.short_code = code)).map (fun r => r.total_clicks)

/-- The last-clicked time of the row a lookup of `code` finds. -/
def lastClickedOf (s : Store) (code : String) : Option (Option Nat) :=
  (s.find? (fun r => r.short_code = code)).map (fun r => r.last_clicked_time)

/-- Redirect `code` once per entry of `times` (each entry the `now()` of
that redirect), threading the store. -/
def redirectN (times : List Nat) (code : String) (s : Store) : Store :=
  times.foldl (fun st t => (redirectHandler t code st).2) s

/-- A concrete URL normalizer for concrete runs: throws on `"bad"`,
re-serializes every other string unchanged. -/
def parse0 : String → Option String :=
  fun s => if s = "bad" then none else some s

/-- A concrete random stream: every draw is 0, so `genCode` always
produces `"AAAAAA"`. -/
def rng0 : Nat → Nat := fun _ => 0

/-- A concrete request environment. -/
def env0 : Env :=
  { parseURL := parse0, rng := rng0, baseUrl := "http://localhost:3001",
    now := 7, uptime := 42 }

/-- A one-row store. -/
def store1 : Store := [⟨"abc123", "https://example.com/page", 0, none⟩]

/-- A store already containing the only code `rng0` can generate. -/
def store2 : Store := [insertRow "AAAAAA" "https://example.org/"]

/-! ## Basic lemmas about the embedded operations -/

lemma clickUpdate_short_code (now : Nat) (c : String) (r : LinkRow) :
    (clickUpdate now c r).short_code = r.short_code := by
  unfold clickUpdate; split <;> rfl

lemma clickUpdate_target_url (now : Nat) (c : String) (r : LinkRow) :
    (clickUpdate now c r).target_url = r.target_url := by
  unfold clickUpdate; split <;> rfl

lemma clickUpdate_of_ne (now : Nat) (c : String) (r : LinkRow)
    (h : (r.short_code = c) = False) : clickUpdate now c r = r := by
  unfold clickUpdate; simp [h]

lemma clickUpdate_of_eq (now : Nat) (c : String) (r : LinkRow)
    (h : r.short_code = c) :
    clickUpdate now c r
      = { r with total_clicks := r.total_clicks + 1,
                 last_clicked_time := some now } := by
  unfold clickUpdate; simp [h]

lemma find?_map_clickUpdate (now : Nat) (c₂ c : String) (s : Store) :
    (s.map (clickUpdate now c₂)).find? (fun r => r.short_code = c)
      = (s.find? (fun r => r.short_code = c)).map (clickUpdate now c₂) := by
  induction s with
  | nil => rfl
  | cons a t ih =>
    by_cases h : a.short_code = c
    · simp [List.find?, clickUpdate_short_code, h]
    · simp [List.find?, clickUpdate_short_code, h, ih]

lemma find?_eq_none_of_not_exists (s : Store) (c : String)
    (h : codeExists s c = false) :
    s.find? (fun r => r.short_code = c) = none := by
  rw [List.find?_eq_none]
  intro x hx
  simp only [codeExists, List.any_eq_false] at h
  simpa using h x hx

lemma exists_of_find?_eq_some {s : Store} {c : String} {r : LinkRow}
    (h : s.find? (fun x => x.short_code = c) = some r) :
    codeExists s c = true := by
  have hr : r ∈ s := List.mem_of_find?_eq_some h
  have hc : r.short_code = c := by simpa using List.find?_some h
  simp only [codeExists, List.any_eq_true]
  exact ⟨r, hr, by simpa using hc⟩

lemma find?_filter_of_imp (p q : LinkRow → Bool) (s : Store)
    (h : ∀ x, p x = true → q x = true) :
    (s.filter q).find? p = s.find? p := by
  induction s with
  | nil => rfl
  | cons a t ih =>
    by_cases hq : q a = true
    · by_cases hp : p a = true
      · simp [List.filter_cons, hq, List.find?, hp]
      · simp only [Bool.not_eq_true] at hp
        simp [List.filter_cons, hq, List.find?, hp, ih]
    · have hp : p a = false := by
        cases hpa : p a with
        | false => rfl
        | true => exact absurd (h a hpa) hq
      simp only [Bool.not_eq_true] at hq
      simp [List.filter_cons, hq, List.find?, hp, ih]

lemma find?_filter_self (c : String) (s : Store) :
    (s.filter (fun r => !(r.short_code = c))).find?
      (fun r => r.short_code = c) = none := by
  induction s with
  | nil => rfl
  | cons a t ih =>
    by_cases h : a.short_code = c
    · simp [List.filter_cons, h, ih]
    · simp [List.filter_cons, h, List.find?, ih]

lemma find?_append_of_found {p : LinkRow → Bool} {s : Store} {r : LinkRow}
    (t : Store) (h : s.find? p = some r) : (s ++ t).find? p = some r := by
  induction s with
  | nil => simp [List.find?] at h
  | cons a l ih =>
    cases hp : p a with
    | true => simp_all [List.find?]
    | false => simp_all [List.find?]

lemma find?_append_of_none {p : LinkRow → Bool} {s : Store}
    (t : Store) (h : s.find? p = none) : (s ++ t).find? p = t.find? p := by
  induction s with
  | nil => rfl
  | cons a l ih =>
    cases hp : p a with
    | true => simp_all [List.find?]
    | false => simp_all [List.find?]

/-! ## Code-generation lemmas -/

lemma charAt_isAlphanum (m : Nat) : (charAt (m % 62)).isAlphanum = true := by
  have h : ∀ j, j < 62 → (charAt j).isAlphanum = true := by decide
  exact h _ (Nat.mod_lt _ (by decide))

lemma genChars_length (rng : Nat → Nat) :
    ∀ (n i : Nat), (genChars rng i n).length = n := by
  intro n
  induction n with
  | zero => intro i; rfl
  | succ n ih => intro i; simp [genChars, ih]

lemma genChars_all_alphanum (rng : Nat → Nat) :
    ∀ (n i : Nat), (genChars rng i n).all Char.isAlphanum = true := by
  intro n
  induction n with
  | zero => intro i; rfl
  | succ n ih => intro i; simp [genChars, ih, charAt_isAlphanum]

lemma genCode_regex (rng : Nat → Nat) (i : Nat) :
    codeRegex (genCode rng i).1 = true := by
  have h3 : rng i % 3 < 3 := Nat.mod_lt _ (by decide)
  simp only [genCode, codeRegex, String.data]
  simp [genChars_length, genChars_all_alphanum]
  omega

lemma genLoop_regex (rng : Nat → Nat) (s : Store) :
    ∀ (fuel i attempts : Nat),
      codeRegex (genLoop rng s i fuel attempts).1 = true := by
  intro fuel
  induction fuel with
  | zero => intro i a; simpa [genLoop] using genCode_regex rng i
  | succ f ih =>
    intro i a
    simp only [genLoop]
    split
    · exact ih _ _
    · exact genCode_regex rng i

lemma genLoop_attempts_le (rng : Nat → Nat) (s : Store) :
    ∀ (fuel i attempts : Nat),
      (genLoop rng s i fuel attempts).2.2 ≤ attempts + fuel + 1 := by
  intro fuel
  induction fuel with
  | zero => intro i a; simp [genLoop]
  | succ f ih =>
    intro i a
    simp only [genLoop]
    split
    · have := ih (genCode rng i).2 (a + 1)
      omega
    · simp

lemma codeRegex_ne_empty {c : String} (h : codeRegex c = true) : c ≠ "" := by
  simp only [codeRegex, Bool.and_eq_true, decide_eq_true_eq] at h
  intro hc
  subst hc
  exact absurd h.1.1 (by decide)

/-! ## Branch lemmas for the create handler -/

lemma createInsertTail_fresh (base code url : String) (s : Store)
    (h : codeExists s code = false) :
    createInsertTail base code url s
      = (Response.createdJson 201 (insertRow code url) (base ++ "/" ++ code),
         s ++ [insertRow code url]) := by
  simp [createInsertTail, dbInsert, insertRow, h]

lemma createInsertTail_conflict (base code url : String) (s : Store)
    (h : codeExists s code = true) :
    createInsertTail base code url s
      = (errorMiddleware DBError.uniqueViolation, s) := by
  simp [createInsertTail, dbInsert, insertRow, h]

lemma createLink_invalid_url (parseURL : String → Option String)
    (rng : Nat → Nat) (base : String) (s : Store) (lu : String)
    (hlu : lu ≠ "") (hp : parseURL lu = none) (cc : Option String) :
    createLink parseURL rng base ⟨some lu, cc⟩ s
      = (Response.errJson 400 "Invalid URL provided", s) := by
  simp [createLink, jsTruthy, hlu, hp]

lemma createLink_custom_bad (parseURL : String → Option String)
    (rng : Nat → Nat) (base : String) (s : Store) (lu norm cc : String)
    (hlu : lu ≠ "") (hp : parseURL lu = some norm)
    (hcc : cc ≠ "") (hbad : codeRegex cc = false) :
    createLink parseURL rng base ⟨some lu, some cc⟩ s
      = (Response.errJson 400 "customCode must match [A-Za-z0-9]\x7b6,8\x7d", s) := by
  simp [createLink, jsTruthy, hlu, hp, hcc, hbad]

lemma createLink_custom_conflict (parseURL : String → Option String)
    (rng : Nat → Nat) (base : String) (s : Store) (lu norm cc : String)
    (hlu : lu ≠ "") (hp : parseURL lu = some norm)
    (hgood : codeRegex cc = true) (hex : codeExists s cc = true) :
    createLink parseURL rng base ⟨some lu, some cc⟩ s
      = (Response.errJson 409 "Code already exists", s) := by
  simp [createLink, jsTruthy, hlu, hp, codeRegex_ne_empty hgood, hgood, hex]

lemma createLink_custom_success (parseURL : String → Option String)
    (rng : Nat → Nat) (base : String) (s : Store) (lu norm cc : String)
    (hlu : lu ≠ "") (hp : parseURL lu = some norm)
    (hgood : codeRegex cc = true) (hex : codeExists s cc = false) :
    createLink parseURL rng base ⟨some lu, some cc⟩ s
      = (Response.createdJson 201 (insertRow cc norm) (base ++ "/" ++ cc),
         s ++ [insertRow cc norm]) := by
  rw [← createInsertTail_fresh base cc norm s hex]
  simp [createLink, jsTruthy, hlu, hp, codeRegex_ne_empty hgood, hgood, hex]

lemma createLink_gen_eq (parseURL : String → Option String)
    (rng : Nat → Nat) (base : String) (s : Store) (lu norm : String)
    (hlu : lu ≠ "") (hp : parseURL lu = some norm)
    (cc : Option String) (hcc : jsTruthy cc = false) :
    createLink parseURL rng base ⟨some lu, cc⟩ s
      = (if codeExists s (genLoop rng s 0 10 0).1 then
           (Response.errJson 500 "Failed to generate unique short_code, try again", s)
         else createInsertTail base (genLoop rng s 0 10 0).1 norm s) := by
  have hlu2 : jsTruthy (some lu) = true := by simp [jsTruthy, hlu]
  simp [createLink, hlu2, hp, hcc]

lemma createLink_gen_success (parseURL : String → Option String)
    (rng : Nat → Nat) (base : String) (s : Store) (lu norm : String)
    (hlu : lu ≠ "") (hp : parseURL lu = some norm)
    (cc : Option String) (hcc : jsTruthy cc = false)
    (hfresh : codeExists s (genLoop rng s 0 10 0).1 = false) :
    createLink parseURL rng base ⟨some lu, cc⟩ s
      = (Response.createdJson 201 (insertRow (genLoop rng s 0 10 0).1 norm)
          (base ++ "/" ++ (genLoop rng s 0 10 0).1),
         s ++ [insertRow (genLoop rng s 0 10 0).1 norm]) := by
  rw [createLink_gen_eq parseURL rng base s lu norm hlu hp cc hcc, hfresh]
  simp [createInsertTail_fresh base (genLoop rng s 0 10 0).1 norm s hfresh]

lemma createLink_gen_exhausted (parseURL : String → Option String)
    (rng : Nat → Nat) (base : String) (s : Store) (lu norm : String)
    (hlu : lu ≠ "") (hp : parseURL lu = some norm)
    (cc : Option String) (hcc : jsTruthy cc = false)
    (hex : codeExists s (genLoop rng s 0 10 0).1 = true) :
    createLink parseURL rng base ⟨some lu, cc⟩ s
      = (Response.errJson 500 "Failed to generate unique short_code, try again", s) := by
  rw [createLink_gen_eq parseURL rng base s lu norm hlu hp cc hcc, hex]
  simp

/-! ## Store-effect summaries -/

lemma createLink_store_effect (parseURL : String → Option String)
    (rng : Nat → Nat) (base : String) (req : CreateReq) (s : Store) :
    (createLink parseURL rng base req s).2 = s ∨
    ∃ code url, codeExists s code = false ∧
      (createLink parseURL rng base req s).2 = s ++ [insertRow code url] := by
  obtain ⟨olu, occ⟩ := req
  cases holu : jsTruthy olu with
  | false => left; simp [createLink, holu]
  | true =>
    obtain ⟨lu, rfl⟩ : ∃ lu, olu = some lu := by
      cases olu with
      | none => simp [jsTruthy] at holu
      | some lu => exact ⟨lu, rfl⟩
    have hlu : lu ≠ "" := by
      intro h; subst h; simp [jsTruthy] at holu
    cases hp : parseURL lu with
    | none => left; rw [createLink_invalid_url parseURL rng base s lu hlu hp occ]
    | some norm =>
      cases hcc : jsTruthy occ with
      | true =>
        obtain ⟨cc, rfl⟩ : ∃ cc, occ = some cc := by
          cases occ with
          | none => simp [jsTruthy] at hcc
          | some cc => exact ⟨cc, rfl⟩
        have hcc2 : cc ≠ "" := by
          intro h; subst h; simp [jsTruthy] at hcc
        cases hgood : codeRegex cc with
        | false =>
          left
          rw [createLink_custom_bad parseURL rng base s lu norm cc hlu hp hcc2 hgood]
        | true =>
          cases hex : codeExists s cc with
          | true =>
            left
            rw [createLink_custom_conflict parseURL rng base s lu norm cc hlu hp hgood hex]
          | false =>
            right
            exact ⟨cc, norm, hex, by
              rw [createLink_custom_success parseURL rng base s lu norm cc hlu hp hgood hex]⟩
      | false =>
        cases hex : codeExists s (genLoop rng s 0 10 0).1 with
        | true =>
          left
          rw [createLink_gen_exhausted parseURL rng base s lu norm hlu hp occ hcc hex]
        | false =>
          right
          exact ⟨(genLoop rng s 0 10 0).1, norm, hex, by
            rw [createLink_gen_success parseURL rng base s lu norm hlu hp occ hcc hex]⟩

lemma redirectHandler_store_effect (now : Nat) (code : String) (s : Store) :
    (redirectHandler now code s).2 = s ∨
    (redirectHandler now code s).2 = s.map (clickUpdate now code) := by
  unfold redirectHandler
  cases h : s.find? (fun r => r.short_code = code) with
  | none => left; rfl
  | some r => right; rfl

lemma deleteLink_store_effect (code : String) (s : Store) :
    (deleteLink code s).2 = s ∨
    (deleteLink code s).2 = s.filter (fun r => !(r.short_code = code)) := by
  unfold deleteLink
  cases h : codeExists s code with
  | false => left; simp
  | true => right; simp

/-! ## Redirect accounting lemmas -/

lemma redirectHandler_found (now : Nat) (code : String) (s : Store)
    {r : LinkRow} (h : s.find? (fun x => x.short_code = code) = some r) :
    redirectHandler now code s
      = (Response.redirectTo 302 r.target_url, s.map (clickUpdate now code)) := by
  unfold redirectHandler
  rw [h]

lemma redirectHandler_absent (now : Nat) (code : String) (s : Store)
    (h : codeExists s code = false) :
    redirectHandler now code s = (Response.text 404 "Not found", s) := by
  unfold redirectHandler
  rw [find?_eq_none_of_not_exists s code h]

lemma clicksOf_map_clickUpdate (now : Nat) (code : String) (s : Store)
    {r : LinkRow} (h : s.find? (fun x => x.short_code = code) = some r) :
    clicksOf (s.map (clickUpdate now code)) code = some (r.total_clicks + 1) ∧
    lastClickedOf (s.map (clickUpdate now code)) code = some (some now) := by
  have hc : r.short_code = code := by simpa using List.find?_some h
  constructor
  · unfold clicksOf
    rw [find?_map_clickUpdate, h]
    simp [clickUpdate_of_eq now code r hc]
  · unfold lastClickedOf
    rw [find?_map_clickUpdate, h]
    simp [clickUpdate_of_eq now code r hc]

lemma redirectN_accounting (code : String) :
    ∀ (times : List Nat) (s : Store) (n : Nat),
      clicksOf s code = some n →
      clicksOf (redirectN times code s) code = some (n + times.length) ∧
      (∀ t, times.getLast? = some t →
        lastClickedOf (redirectN times code s) code = some (some t)) := by
  intro times
  induction times with
  | nil =>
    intro s n h
    refine ⟨by simpa [redirectN] using h, ?_⟩
    intro t ht
    simp at ht
  | cons a ts ih =>
    intro s n h
    obtain ⟨r, hr, hn⟩ : ∃ r, s.find? (fun x => x.short_code = code) = some r
        ∧ r.total_clicks = n := by
      unfold clicksOf at h
      cases hf : s.find? (fun x => x.short_code = code) with
      | none => rw [hf] at h; simp at h
      | some r => rw [hf] at h; exact ⟨r, rfl, by simpa using h⟩
    have hstep : (redirectHandler a code s).2 = s.map (clickUpdate a code) := by
      rw [redirectHandler_found a code s hr]
    have hacc := clicksOf_map_clickUpdate a code s hr
    have hfold : redirectN (a :: ts) code s
        = redirectN ts code (redirectHandler a code s).2 := by
      simp [redirectN, List.foldl_cons]
    rw [hfold, hstep]
    have hstep_clicks : clicksOf (s.map (clickUpdate a code)) code = some (n + 1) := by
      rw [hacc.1, hn]
    have := ih (s.map (clickUpdate a code)) (n + 1) hstep_clicks
    refine ⟨by rw [this.1]; congr 1; simp; omega, ?_⟩
    intro t ht
    cases ts with
    | nil =>
      simp at ht
      subst ht
      simpa [redirectN] using hacc.2
    | cons b ts2 =>
      rw [List.getLast?_cons_cons] at ht
      exact this.2 t ht

lemma clicksOf_some_elim {s : Store} {c : String} {n : Nat}
    (h : clicksOf s c = some n) :
    ∃ r, s.find? (fun x => x.short_code = c) = some r ∧ r.total_clicks = n := by
  unfold clicksOf at h
  cases hf : s.find? (fun x => x.short_code = c) with
  | none => rw [hf] at h; cases h
  | some r => rw [hf] at h; exact ⟨r, rfl, by simpa using h⟩

lemma clicksOf_none_elim {s : Store} {c : String}
    (h : clicksOf s c = none) :
    s.find? (fun x => x.short_code = c) = none := by
  unfold clicksOf at h
  cases hf : s.find? (fun x => x.short_code = c) with
  | none => rfl
  | some r => rw [hf] at h; cases h

lemma clicks_claims_of_same (c : String) (s s2 : Store)
    (hs : clicksOf s2 c = clicksOf s c) :
    (∀ n n2, clicksOf s c = some n → clicksOf s2 c = some n2
      → n ≤ n2 ∧ n2 = n) ∧
    (∀ n2, clicksOf s c = none → clicksOf s2 c = some n2 → n2 = 0) := by
  constructor
  · intro n n2 h1 h2
    rw [hs, h1] at h2
    have h3 := Option.some.inj h2
    exact ⟨le_of_eq h3, h3.symm⟩
  · intro n2 h1 h2
    rw [hs, h1] at h2
    cases h2

lemma clicksOf_filter_of_ne {s : Store} {c c2 : String} (hcc : c ≠ c2) :
    clicksOf (s.filter (fun r => !(r.short_code = c2))) c = clicksOf s c := by
  unfold clicksOf
  rw [find?_filter_of_imp]
  intro x hx
  simp only [decide_eq_true_eq] at hx
  simp [hx, hcc]

/-! ## Claim theorems -/

/-- C1 counterexample: two Create requests with custom code `"abc123"`
both pass the pre-check against the empty store; the first inserts, and
the second request's insert then hits the Store's unique constraint —
but the handler surfaces it as the generic 500 Internal server error,
not as a 409 Conflict. -/
theorem race_conflict_counterexample :
    codeExists [] "abc123" = false ∧
    (createInsertTail "http://localhost:3001" "abc123" "https://example.com/"
        ((createInsertTail "http://localhost:3001" "abc123"
          "https://example.com/" []).2)).1
      = Response.errJson 500 "Internal server error" ∧
    (createInsertTail "http://localhost:3001" "abc123" "https://example.com/"
        ((createInsertTail "http://localhost:3001" "abc123"
          "https://example.com/" []).2)).1.statusCode ≠ 409 := by
  decide

/-- C1 (amended): when a Create request's insert races a concurrent
insert of the same code past the pre-check, the Store's unique-constraint
violation is caught (not silently dropped) but is surfaced through the
error-handler middleware as a generic 500 Internal server error response,
not as a 409 Conflict. -/
theorem duplicate_insert_gives_internal_error (base code url : String)
    (s : Store) (h : codeExists s code = true) :
    createInsertTail base code url s
      = (errorMiddleware DBError.uniqueViolation, s) ∧
    errorMiddleware DBError.uniqueViolation
      = Response.errJson 500 "Internal server error" ∧
    (createInsertTail base code url s).1.statusCode = 500 := by
  refine ⟨createInsertTail_conflict base code url s h, rfl, ?_⟩
  rw [createInsertTail_conflict base code url s h]
  rfl

theorem duplicate_insert_gives_internal_error_witness :
    createInsertTail "http://localhost:3001" "abc123" "https://example.com/"
        store1
      = (errorMiddleware DBError.uniqueViolation, store1) :=
  (duplicate_insert_gives_internal_error "http://localhost:3001" "abc123"
    "https://example.com/" store1 (by decide)).1

/-- C2: a redirect for an absent code answers 404 plain text and leaves
the store unchanged; for a present code it answers a 302 redirect to the
stored `target_url` and applies the atomic increment-in-place update,
yielding `total_clicks + 1` and `last_clicked_time = now`; redirecting a
code whose counter is 0 a total of N times yields `total_clicks = N` and
`last_clicked_time` equal to the most recent redirect time. -/
theorem redirect_resolves_and_counts (now : Nat) (code : String) (s : Store) :
    (codeExists s code = false →
      redirectHandler now code s = (Response.text 404 "Not found", s)) ∧
    (∀ r, s.find? (fun x => x.short_code = code) = some r →
      redirectHandler now code s
        = (Response.redirectTo 302 r.target_url, s.map (clickUpdate now code)) ∧
      clicksOf (redirectHandler now code s).2 code = some (r.total_clicks + 1) ∧
      lastClickedOf (redirectHandler now code s).2 code = some (some now)) ∧
    (∀ times : List Nat, clicksOf s code = some 0 →
      clicksOf (redirectN times code s) code = some times.length ∧
      (∀ t, times.getLast? = some t →
        lastClickedOf (redirectN times code s) code = some (some t))) := by
  refine ⟨redirectHandler_absent now code s, ?_, ?_⟩
  · intro r hr
    have hfound := redirectHandler_found now code s hr
    refine ⟨hfound, ?_, ?_⟩
    · rw [hfound]
      exact (clicksOf_map_clickUpdate now code s hr).1
    · rw [hfound]
      exact (clicksOf_map_clickUpdate now code s hr).2
  · intro times h0
    have hacc := redirectN_accounting code times s 0 h0
    exact ⟨by simpa using hacc.1, hacc.2⟩

theorem redirect_resolves_and_counts_witness :
    redirectHandler 5 "zzz999" store1 = (Response.text 404 "Not found", store1) ∧
    clicksOf (redirectN [3, 9] "abc123" store1) "abc123" = some 2 ∧
    lastClickedOf (redirectN [3, 9] "abc123" store1) "abc123" = some (some 9) := by
  refine ⟨(redirect_resolves_and_counts 5 "zzz999" store1).1 (by decide), ?_, ?_⟩
  · exact ((redirect_resolves_and_counts 0 "abc123" store1).2.2 [3, 9]
      (by decide)).1
  · exact ((redirect_resolves_and_counts 0 "abc123" store1).2.2 [3, 9]
      (by decide)).2 9 (by decide)

/-- C3: with a parseable `longUrl` (normalizing to `norm`), Create with
no custom code (absent or empty, provided generation finds an unused
code) or with a valid unused custom code answers 201 with the stored row
`{short_code, target_url = norm, total_clicks = 0, last_clicked_time =
null}` appended to the store and the derived short URL `base ++ "/" ++
code`; every returned code satisfies the `[A-Za-z0-9]` 6–8 pattern; an
unparseable `longUrl` answers 400 Invalid URL with the store unchanged. -/
theorem create_valid_url_spec (parseURL : String → Option String)
    (rng : Nat → Nat) (base : String) (s : Store) (lu norm : String)
    (hlu : lu ≠ "") (hp : parseURL lu = some norm) :
    (∀ cc, jsTruthy cc = false →
      codeExists s (genLoop rng s 0 10 0).1 = false →
      createLink parseURL rng base ⟨some lu, cc⟩ s
        = (Response.createdJson 201 (insertRow (genLoop rng s 0 10 0).1 norm)
            (base ++ "/" ++ (genLoop rng s 0 10 0).1),
           s ++ [insertRow (genLoop rng s 0 10 0).1 norm]) ∧
      codeRegex (genLoop rng s 0 10 0).1 = true) ∧
    (∀ cc, codeRegex cc = true → codeExists s cc = false →
      createLink parseURL rng base ⟨some lu, some cc⟩ s
        = (Response.createdJson 201 (insertRow cc norm) (base ++ "/" ++ cc),
           s ++ [insertRow cc norm])) ∧
    (∀ code url, (insertRow code url).total_clicks = 0
      ∧ (insertRow code url).last_clicked_time = none) ∧
    (∀ lu2, lu2 ≠ "" → parseURL lu2 = none →
      createLink parseURL rng base ⟨some lu2, none⟩ s
        = (Response.errJson 400 "Invalid URL provided", s)) := by
  refine ⟨?_, ?_, fun code url => ⟨rfl, rfl⟩, ?_⟩
  · intro cc hcc hfresh
    exact ⟨createLink_gen_success parseURL rng base s lu norm hlu hp cc hcc
      hfresh, genLoop_regex rng s 10 0 0⟩
  · intro cc hgood hex
    exact createLink_custom_success parseURL rng base s lu norm cc hlu hp
      hgood hex
  · intro lu2 hlu2 hp2
    exact createLink_invalid_url parseURL rng base s lu2 hlu2 hp2 none

theorem create_valid_url_spec_witness :
    createLink parse0 rng0 "http://localhost:3001"
        ⟨some "https://example.com/", none⟩ []
      = (Response.createdJson 201 (insertRow "AAAAAA" "https://example.com/")
          "http://localhost:3001/AAAAAA",
         [insertRow "AAAAAA" "https://example.com/"]) ∧
    createLink parse0 rng0 "http://localhost:3001"
        ⟨some "https://example.com/page", some "abc123"⟩ []
      = (Response.createdJson 201 (insertRow "abc123" "https://example.com/page")
          "http://localhost:3001/abc123",
         [insertRow "abc123" "https://example.com/page"]) ∧
    createLink parse0 rng0 "http://localhost:3001" ⟨some "bad", none⟩ []
      = (Response.errJson 400 "Invalid URL provided", []) := by
  refine ⟨?_, ?_, ?_⟩
  · exact ((create_valid_url_spec parse0 rng0 "http://localhost:3001" []
      "https://example.com/" "https://example.com/" (by decide) (by decide)).1
      none (by decide) (by decide)).1
  · exact (create_valid_url_spec parse0 rng0 "http://localhost:3001" []
      "https://example.com/page" "https://example.com/page" (by decide)
      (by decide)).2.1 "abc123" (by decide) (by decide)
  · exact (create_valid_url_spec parse0 rng0 "http://localhost:3001" []
      "https://example.com/" "https://example.com/" (by decide)
      (by decide)).2.2.2 "bad" (by decide) (by decide)

/-- C4 counterexample: `customCode = ""` is caller-supplied and does not
match the pattern, yet Create does not fail with 400: the empty string is
falsy, so a random code is generated and the request succeeds with 201
and an inserted row. -/
theorem empty_custom_code_not_rejected :
    codeRegex "" = false ∧
    createLink parse0 rng0 "http://localhost:3001"
        ⟨some "https://example.com/", some ""⟩ []
      = (Response.createdJson 201 (insertRow "AAAAAA" "https://example.com/")
          "http://localhost:3001/AAAAAA",
         [insertRow "AAAAAA" "https://example.com/"]) := by
  decide

/-- C4 (amended): for a valid `longUrl`, every NON-EMPTY caller-supplied
custom code that does not match `[A-Za-z0-9]` 6–8 makes Create fail 400
InvalidInput with no row inserted; every custom code matching the pattern
but already present in the Store makes Create fail 409 Conflict with no
row inserted (an empty custom code is instead treated as absent). -/
theorem custom_code_validation (parseURL : String → Option String)
    (rng : Nat → Nat) (base : String) (s : Store) (lu norm cc : String)
    (hlu : lu ≠ "") (hp : parseURL lu = some norm) (hcc : cc ≠ "") :
    (codeRegex cc = false →
      createLink parseURL rng base ⟨some lu, some cc⟩ s
        = (Response.errJson 400
            "customCode must match [A-Za-z0-9]\x7b6,8\x7d", s)) ∧
    (codeRegex cc = true → codeExists s cc = true →
      createLink parseURL rng base ⟨some lu, some cc⟩ s
        = (Response.errJson 409 "Code already exists", s)) :=
  ⟨fun hbad =>
    createLink_custom_bad parseURL rng base s lu norm cc hlu hp hcc hbad,
   fun hgood hex =>
    createLink_custom_conflict parseURL rng base s lu norm cc hlu hp
      hgood hex⟩

theorem custom_code_validation_witness :
    createLink parse0 rng0 "http://localhost:3001"
        ⟨some "https://example.com/", some "ab!"⟩ []
      = (Response.errJson 400
          "customCode must match [A-Za-z0-9]\x7b6,8\x7d", []) ∧
    createLink parse0 rng0 "http://localhost:3001"
        ⟨some "https://example.com/", some "abc123"⟩ store1
      = (Response.errJson 409 "Code already exists", store1) :=
  ⟨(custom_code_validation parse0 rng0 "http://localhost:3001" []
      "https://example.com/" "https://example.com/" "ab!" (by decide)
      (by decide) (by decide)).1 (by decide),
   (custom_code_validation parse0 rng0 "http://localhost:3001" store1
      "https://example.com/" "https://example.com/" "abc123" (by decide)
      (by decide) (by decide)).2 (by decide) (by decide)⟩

/-- C5: the random-generation loop performs at most 11 generation
attempts (so it always terminates), and when even the last generated code
already exists in the Store the handler answers the ResourceExhausted
500 response with the store unchanged. -/
theorem generation_bounded (parseURL : String → Option String)
    (rng : Nat → Nat) (base : String) (s : Store) (lu norm : String)
    (cc : Option String) (hlu : lu ≠ "") (hp : parseURL lu = some norm)
    (hcc : jsTruthy cc = false) :
    (∀ fuel i attempts,
      (genLoop rng s i fuel attempts).2.2 ≤ attempts + fuel + 1) ∧
    (genLoop rng s 0 10 0).2.2 ≤ 11 ∧
    (codeExists s (genLoop rng s 0 10 0).1 = true →
      createLink parseURL rng base ⟨some lu, cc⟩ s
        = (Response.errJson 500
            "Failed to generate unique short_code, try again", s)) := by
  refine ⟨fun fuel i a => genLoop_attempts_le rng s fuel i a, ?_, ?_⟩
  · simpa using genLoop_attempts_le rng s 10 0 0
  · intro hex
    exact createLink_gen_exhausted parseURL rng base s lu norm hlu hp cc
      hcc hex

theorem generation_bounded_witness :
    (genLoop rng0 store2 0 10 0).2.2 ≤ 11 ∧
    createLink parse0 rng0 "http://localhost:3001"
        ⟨some "https://example.com/", none⟩ store2
      = (Response.errJson 500
          "Failed to generate unique short_code, try again", store2) :=
  ⟨(generation_bounded parse0 rng0 "http://localhost:3001" store2
      "https://example.com/" "https://example.com/" none (by decide)
      (by decide) (by decide)).2.1,
   (generation_bounded parse0 rng0 "http://localhost:3001" store2
      "https://example.com/" "https://example.com/" none (by decide)
      (by decide) (by decide)).2.2 (by decide)⟩

/-- C6: the router registers the health summary at `/health`, so a GET
request to `/healthz` (the path the backend README and the frontend use)
falls through to the `/:short_code` redirect route and, on a store
without a link coded `"healthz"`, answers 404 plain text instead of the
200 JSON summary — which the handler at `/health` does produce, with
status, version, uptime and total link count. -/
theorem healthz_misrouted :
    dispatch "GET" ["healthz"] = Target.redirectL "healthz" ∧
    (redirectHandler 0 "healthz" []).1 = Response.text 404 "Not found" ∧
    dispatch "GET" ["health"] = Target.health ∧
    healthHandler 42 store1
      = Response.healthJson 200
          ⟨"healthy", "1.0", 42, "0d 0h 0m 42s", 1⟩ := by
  decide

/-- C7: Delete on a present code removes every row bearing it and answers
204 with no content, after which Get on the same code answers 404
NotFound; Delete on an absent code answers 404 with the store
unchanged. -/
theorem delete_then_get_not_found (code : String) (s : Store) :
    (codeExists s code = true →
      deleteLink code s
        = (Response.noContent 204,
           s.filter (fun r => !(r.short_code = code))) ∧
      getLinkStats code (deleteLink code s).2
        = Response.errJson 404 "Not found") ∧
    (codeExists s code = false →
      deleteLink code s = (Response.errJson 404 "Not found", s)) := by
  constructor
  · intro h
    have hdel : deleteLink code s
        = (Response.noContent 204,
           s.filter (fun r => !(r.short_code = code))) := by
      simp [deleteLink, h]
    refine ⟨hdel, ?_⟩
    have h2 : getLinkStats code (s.filter (fun r => !(r.short_code = code)))
        = Response.errJson 404 "Not found" := by
      unfold getLinkStats
      rw [find?_filter_self]
    rw [hdel]
    exact h2
  · intro h
    simp [deleteLink, h]

theorem delete_then_get_not_found_witness :
    deleteLink "abc123" store1 = (Response.noContent 204, []) ∧
    getLinkStats "abc123" (deleteLink "abc123" store1).2
      = Response.errJson 404 "Not found" ∧
    deleteLink "zzz999" store1 = (Response.errJson 404 "Not found", store1) := by
  refine ⟨?_, ?_, ?_⟩
  · exact ((delete_then_get_not_found "abc123" store1).1 (by decide)).1
  · exact ((delete_then_get_not_found "abc123" store1).1 (by decide)).2
  · exact (delete_then_get_not_found "zzz999" store1).2 (by decide)

/-- C8: across every operation, the click counter a lookup of any code
finds never decreases; non-redirect operations never change it (create
can only introduce a code, at counter 0, and delete only removes rows);
only the redirect handler increments it. -/
theorem total_clicks_monotone (env : Env) (op : Op) (s : Store) (c : String) :
    (∀ n n2, clicksOf s c = some n → clicksOf (step env op s).2 c = some n2 →
      n ≤ n2 ∧ (op.isRedirect = false → n2 = n)) ∧
    (∀ n2, clicksOf s c = none → clicksOf (step env op s).2 c = some n2 →
      n2 = 0) := by
  cases op with
  | health =>
    have h := clicks_claims_of_same c s s rfl
    exact ⟨fun n n2 a b => ⟨(h.1 n n2 a b).1, fun _ => (h.1 n n2 a b).2⟩, h.2⟩
  | list =>
    have h := clicks_claims_of_same c s s rfl
    exact ⟨fun n n2 a b => ⟨(h.1 n n2 a b).1, fun _ => (h.1 n n2 a b).2⟩, h.2⟩
  | get c2 =>
    have h := clicks_claims_of_same c s s rfl
    exact ⟨fun n n2 a b => ⟨(h.1 n n2 a b).1, fun _ => (h.1 n n2 a b).2⟩, h.2⟩
  | del c2 =>
    have heff : (step env (Op.del c2) s).2 = (deleteLink c2 s).2 := rfl
    rcases deleteLink_store_effect c2 s with hd | hd
    · have h := clicks_claims_of_same c s
        ((step env (Op.del c2) s).2) (by rw [heff, hd])
      exact ⟨fun n n2 a b => ⟨(h.1 n n2 a b).1, fun _ => (h.1 n n2 a b).2⟩, h.2⟩
    · by_cases hcc : c = c2
      · subst hcc
        constructor
        · intro n n2 h1 h2
          rw [heff, hd] at h2
          unfold clicksOf at h2
          rw [find?_filter_self] at h2
          cases h2
        · intro n2 h1 h2
          rw [heff, hd] at h2
          unfold clicksOf at h2
          rw [find?_filter_self] at h2
          cases h2
      · have h := clicks_claims_of_same c s
          ((step env (Op.del c2) s).2)
          (by rw [heff, hd]; exact clicksOf_filter_of_ne hcc)
        exact ⟨fun n n2 a b => ⟨(h.1 n n2 a b).1, fun _ => (h.1 n n2 a b).2⟩,
          h.2⟩
  | create req =>
    have heff : (step env (Op.create req) s).2
        = (createLink env.parseURL env.rng env.baseUrl req s).2 := rfl
    rcases createLink_store_effect env.parseURL env.rng env.baseUrl req s
      with hc | ⟨code, url, hfresh, hc⟩
    · have h := clicks_claims_of_same c s
        ((step env (Op.create req) s).2) (by rw [heff, hc])
      exact ⟨fun n n2 a b => ⟨(h.1 n n2 a b).1, fun _ => (h.1 n n2 a b).2⟩, h.2⟩
    · constructor
      · intro n n2 h1 h2
        obtain ⟨r, hr, hn⟩ := clicksOf_some_elim h1
        rw [heff, hc] at h2
        unfold clicksOf at h2
        rw [find?_append_of_found _ hr] at h2
        simp only [Option.map_some'] at h2
        have h3 := Option.some.inj h2
        rw [hn] at h3
        exact ⟨le_of_eq h3, fun _ => h3.symm⟩
      · intro n2 h1 h2
        have hfn := clicksOf_none_elim h1
        rw [heff, hc] at h2
        unfold clicksOf at h2
        rw [find?_append_of_none _ hfn] at h2
        by_cases hcu : (insertRow code url).short_code = c
        · rw [List.find?_cons_of_pos _ (by simpa using hcu)] at h2
          simp only [Option.map_some'] at h2
          have := (Option.some.inj h2).symm
          simpa [insertRow] using this
        · rw [List.find?_cons_of_neg _ (by simpa using hcu)] at h2
          cases h2
  | redirect c2 =>
    have heff : (step env (Op.redirect c2) s).2
        = (redirectHandler env.now c2 s).2 := rfl
    rcases redirectHandler_store_effect env.now c2 s with hr | hr
    · have h := clicks_claims_of_same c s
        ((step env (Op.redirect c2) s).2) (by rw [heff, hr])
      exact ⟨fun n n2 a b => ⟨(h.1 n n2 a b).1, fun _ => (h.1 n n2 a b).2⟩, h.2⟩
    · constructor
      · intro n n2 h1 h2
        obtain ⟨r, hfind, hn⟩ := clicksOf_some_elim h1
        rw [heff, hr] at h2
        unfold clicksOf at h2
        rw [find?_map_clickUpdate, hfind] at h2
        simp only [Option.map_some'] at h2
        have h3 := (Option.some.inj h2).symm
        have h4 : (clickUpdate env.now c2 r).total_clicks = r.total_clicks ∨
            (clickUpdate env.now c2 r).total_clicks = r.total_clicks + 1 := by
          unfold clickUpdate
          split
          · right; rfl
          · left; rfl
        constructor
        · rcases h4 with h4 | h4 <;> omega
        · intro hfalse
          simp [Op.isRedirect] at hfalse
      · intro n2 h1 h2
        have hfn := clicksOf_none_elim h1
        rw [heff, hr] at h2
        unfold clicksOf at h2
        rw [find?_map_clickUpdate, hfn] at h2
        cases h2

theorem total_clicks_monotone_witness :
    clicksOf store1 "abc123" = some 0 ∧
    clicksOf (step env0 (Op.redirect "abc123") store1).2 "abc123" = some 1 ∧
    (0 ≤ 1 ∧ ((Op.redirect "abc123").isRedirect = false → 1 = 0)) :=
  ⟨by decide, by decide,
   (total_clicks_monotone env0 (Op.redirect "abc123") store1 "abc123").1 0 1
     (by decide) (by decide)⟩

/-- C9: a stored Link's `short_code` and `target_url` are never modified:
redirect either leaves the store unchanged (404) or maps `clickUpdate`
over it — a transformation that preserves code and target URL, touches
only the matching row, and changes only its counter and timestamp;
delete removes matching rows wholesale, leaving the surviving rows
unchanged; create at most appends one fresh zero-click row; every other
operation leaves the store untouched. -/
theorem link_fields_frame (env : Env) (op : Op) (s : Store) :
    (∀ c2, op = Op.redirect c2 →
      (step env op s).2 = s ∨
      (step env op s).2 = s.map (clickUpdate env.now c2)) ∧
    (∀ c2, op = Op.del c2 →
      (step env op s).2 = s ∨
      (step env op s).2 = s.filter (fun r => !(r.short_code = c2))) ∧
    (∀ req, op = Op.create req →
      (step env op s).2 = s ∨
      ∃ t : LinkRow, t.total_clicks = 0 ∧ t.last_clicked_time = none ∧
        (step env op s).2 = s ++ [t]) ∧
    ((∀ c2, op ≠ Op.redirect c2) → (∀ c2, op ≠ Op.del c2) →
      (∀ req, op ≠ Op.create req) → (step env op s).2 = s) ∧
    (∀ now c2 r, (clickUpdate now c2 r).short_code = r.short_code ∧
      (clickUpdate now c2 r).target_url = r.target_url ∧
      (r.short_code ≠ c2 → clickUpdate now c2 r = r)) := by
  refine ⟨?_, ?_, ?_, ?_, fun now c2 r =>
    ⟨clickUpdate_short_code now c2 r, clickUpdate_target_url now c2 r,
     fun hne => clickUpdate_of_ne now c2 r (eq_false hne)⟩⟩
  · rintro c2 rfl
    exact redirectHandler_store_effect env.now c2 s
  · rintro c2 rfl
    exact deleteLink_store_effect c2 s
  · rintro req rfl
    rcases createLink_store_effect env.parseURL env.rng env.baseUrl req s
      with h | ⟨code, url, hfresh, h⟩
    · exact Or.inl h
    · exact Or.inr ⟨insertRow code url, rfl, rfl, h⟩
  · intro h1 h2 h3
    cases op with
    | health => rfl
    | list => rfl
    | get c2 => rfl
    | redirect c2 => exact absurd rfl (h1 c2)
    | del c2 => exact absurd rfl (h2 c2)
    | create req => exact absurd rfl (h3 req)

theorem link_fields_frame_witness :
    (step env0 (Op.redirect "abc123") store1).2 = store1 ∨
    (step env0 (Op.redirect "abc123") store1).2
      = store1.map (clickUpdate env0.now "abc123") :=
  (link_fields_frame env0 (Op.redirect "abc123") store1).1 "abc123" rfl

/-- C10: a Create request whose `customCode` is the empty string behaves
exactly like one with no `customCode` at all — it is not rejected for
pattern mismatch, and with a parseable URL (and generation finding an
unused code) a random code is generated and the request succeeds. -/
theorem empty_custom_code_treated_as_absent
    (parseURL : String → Option String) (rng : Nat → Nat) (base : String)
    (s : Store) (olu : Option String) (lu norm : String)
    (hlu : lu ≠ "") (hp : parseURL lu = some norm) :
    createLink parseURL rng base ⟨olu, some ""⟩ s
      = createLink parseURL rng base ⟨olu, none⟩ s ∧
    (codeExists s (genLoop rng s 0 10 0).1 = false →
      createLink parseURL rng base ⟨some lu, some ""⟩ s
        = (Response.createdJson 201
            (insertRow (genLoop rng s 0 10 0).1 norm)
            (base ++ "/" ++ (genLoop rng s 0 10 0).1),
           s ++ [insertRow (genLoop rng s 0 10 0).1 norm])) := by
  constructor
  · have h1 : jsTruthy (some "") = false := by decide
    have h2 : jsTruthy (none : Option String) = false := rfl
    simp [createLink, h1, h2]
  · intro hfresh
    exact createLink_gen_success parseURL rng base s lu norm hlu hp
      (some "") (by decide) hfresh

theorem empty_custom_code_treated_as_absent_witness :
    createLink parse0 rng0 "http://localhost:3001"
        ⟨some "https://example.com/", some ""⟩ []
      = createLink parse0 rng0 "http://localhost:3001"
        ⟨some "https://example.com/", none⟩ [] ∧
    createLink parse0 rng0 "http://localhost:3001"
        ⟨some "https://example.com/", some ""⟩ []
      = (Response.createdJson 201 (insertRow "AAAAAA" "https://example.com/")
          "http://localhost:3001/AAAAAA",
         [insertRow "AAAAAA" "https://example.com/"]) :=
  ⟨(empty_custom_code_treated_as_absent parse0 rng0 "http://localhost:3001"
      [] (some "https://example.com/") "https://example.com/"
      "https://example.com/" (by decide) (by decide)).1,
   (empty_custom_code_treated_as_absent parse0 rng0 "http://localhost:3001"
      [] (some "https://example.com/") "https://example.com/"
      "https://example.com/" (by decide) (by decide)).2 (by decide)⟩
